import Mathlib

/-!
Verification of the livestream agent examples.

The Python sources embedded here are
`examples/03_simple_agent.py` (a classify-and-dispatch agent with an
in-memory reminder store) and `examples/04_react_agent.py` (pure tool
functions `get_weather` and `get_day_of_week`, plus `setup_dspy`).

Modelling conventions:
* The language-model predictors (`task_analyzer`, `calculator`, `qa`,
  `reminder_creator`) are external effects; they are modelled as
  function-valued fields of an environment `Env`, so theorems quantify
  over every possible model behaviour.
* Mutation of `self` is modelled by explicit state passing on
  `AgentState`; every agent operation returns its new state.
* Each handler also returns the list of predictor invocations it makes,
  so "performs no model call" is a provable statement.
* Python exceptions (`ValueError`) are modelled as `Except String`.
-/

/-- Output fields of the `TaskAnalyzer` signature: `task_type` and
`extracted_info` (03_simple_agent.py, lines 26-30). -/
structure Analysis where
  task_type : String
  extracted_info : String
deriving Repr, DecidableEq

/-- A stored reminder (03_simple_agent.py, lines 137-141): a dict with
keys `text`, `suggested_time`, `created_at`. -/
structure ReminderRecord where
  text : String
  suggested_time : String
  created_at : String
deriving Repr, DecidableEq

/-- The mutable state of a `SimpleAgent`: `self.reminders`, the simple
in-memory storage initialised to `[]` (03_simple_agent.py, line 58). -/
structure AgentState where
  reminders : List ReminderRecord
deriving Repr, DecidableEq

/-- One invocation of a predictor (`dspy.Predict`), recording which
predictor ran and on which input field value. -/
inductive PredCall where
  | analyzer (user_request : String)
  | calc (expression : String)
  | qa (question : String)
  | remind (request : String)
deriving Repr, DecidableEq

/-- The external world of the agent: the behaviour of the four
predictors built in `SimpleAgent.__init__`, and the clock used for
`created_at`.  `reminder_creator` returns the pair
(`reminder_text`, `suggested_time`). -/
structure Env where
  task_analyzer : String → Analysis
  calculator : String → String
  qa : String → String
  reminder_creator : String → String × String
  now : String

/-- Result of one agent operation: the returned string, the new agent
state, and the predictor calls made (in order). -/
abbrev StepResult := String × AgentState × List PredCall

/-- `SimpleAgent._handle_calculation` (03_simple_agent.py, lines
108-116): one `calculator` call, formatted result, no state change. -/
def handle_calculation (env : Env) (st : AgentState) (expression : String) : StepResult :=
  let result := env.calculator expression
  ("📊 Calculation Result: " ++ result, st, [PredCall.calc expression])

/-- `SimpleAgent._handle_question` (03_simple_agent.py, lines 118-126):
one `qa` call on the question, formatted answer, no state change. -/
def handle_question (env : Env) (st : AgentState) (question : String) : StepResult :=
  let result := env.qa question
  ("💡 Answer: " ++ result, st, [PredCall.qa question])

/-- The record appended by the reminder handler for a given request:
fields produced by `reminder_creator` plus the current time. -/
def mkReminder (env : Env) (request : String) : ReminderRecord :=
  { text := (env.reminder_creator request).1
    suggested_time := (env.reminder_creator request).2
    created_at := env.now }

/-- `SimpleAgent._handle_reminder` (03_simple_agent.py, lines 128-144):
one `reminder_creator` call, appends one record to `self.reminders`,
returns a confirmation string. -/
def handle_reminder (env : Env) (st : AgentState) (request : String) : StepResult :=
  let result := env.reminder_creator request
  ("✅ Reminder created: " ++ result.1 ++ "\n⏱️  Suggested time: " ++ result.2,
   { st with reminders := st.reminders ++ [mkReminder env request] },
   [PredCall.remind request])

/-- `SimpleAgent._handle_weather` (03_simple_agent.py, lines 146-149):
a fixed static response, no predictor call, no state change. -/
def handle_weather (_env : Env) (st : AgentState) (_request : String) : StepResult :=
  ("🌤️ Weather: I don\x27t have access to real weather data yet, but I can help you set up a weather API integration!",
   st, [])

/-- `SimpleAgent._handle_unknown` (03_simple_agent.py, lines 151-160):
re-poses the request as a question to the `qa` predictor. -/
def handle_unknown (env : Env) (st : AgentState) (request : String) : StepResult :=
  let fallback_question := "How can I help with this request: " ++ request
  let fallback := env.qa fallback_question
  ("🤷 I\x27m not sure exactly what you need, but here\x27s my best attempt to help: " ++ fallback,
   st, [PredCall.qa fallback_question])

/-- `SimpleAgent.process_request` (03_simple_agent.py, lines 83-106):
one `task_analyzer` call, then the if/elif/else dispatch on
`analysis.task_type`. -/
def process_request (env : Env) (st : AgentState) (user_request : String) : StepResult :=
  let analysis := env.task_analyzer user_request
  let step :=
    if analysis.task_type = "calculation" then
      handle_calculation env st analysis.extracted_info
    else if analysis.task_type = "question" then
      handle_question env st user_request
    else if analysis.task_type = "reminder" then
      handle_reminder env st user_request
    else if analysis.task_type = "weather" then
      handle_weather env st user_request
    else
      handle_unknown env st user_request
  (step.1, step.2.1, PredCall.analyzer user_request :: step.2.2)

/-- Folds `process_request` over a list of requests, threading the
agent state (as the demo and interactive loops of 03_simple_agent.py
do). -/
def process_all (env : Env) : AgentState → List String → AgentState
  | st, [] => st
  | st, r :: rs => process_all env (process_request env st r).2.1 rs

/-- The body of the listing loop of `SimpleAgent.list_reminders`
(03_simple_agent.py, lines 167-169): `enumerate(self.reminders, i)`
rendering each record as `i. text (suggested: time)\n`. -/
def renderReminders : Nat → List ReminderRecord → String
  | _, [] => ""
  | i, r :: rs =>
      toString i ++ ". " ++ r.text ++ " (suggested: " ++ r.suggested_time ++ ")\n"
        ++ renderReminders (i + 1) rs

/-- `SimpleAgent.list_reminders` (03_simple_agent.py, lines 162-171).
It reads `self.reminders` and assigns no attribute, so the state it
returns is the state it was given. -/
def list_reminders (st : AgentState) : String × AgentState :=
  if st.reminders = [] then
    ("📝 No reminders stored yet.", st)
  else
    ("📝 Your reminders:\n" ++ renderReminders 1 st.reminders, st)

/-- The model-client handle built by `setup_dspy`
(04_react_agent.py, line 17): model identifier and API key. -/
structure GeminiLM where
  model : String
  api_key : String
deriving Repr, DecidableEq

/-- `setup_dspy` (04_react_agent.py, lines 8-20 and the identical check
in 03_simple_agent.py, lines 13-24): reads `GEMINI_API_KEY` from the
environment and raises `ValueError` when it is missing or empty
(`if not api_key`), before constructing the model client.  The
environment is a partial map from variable name to value; `model_id` is
the per-example model string. -/
def setup_dspy (getenv : String → Option String) (model_id : String) : Except String GeminiLM :=
  let api_key := (getenv "GEMINI_API_KEY").getD ""
  if api_key = "" then
    Except.error "GEMINI_API_KEY not found in environment variables"
  else
    Except.ok { model := model_id, api_key := api_key }

/-- Python `str.lower()`: character-wise lowercasing (ASCII case
mapping, which agrees with Python on every string whose lowercase could
equal one of the weekday names matched below). -/
def pyLower (s : String) : String :=
  String.mk (s.data.map Char.toLower)

/-- The `match day_of_week.lower()` table inside `get_weather`
(04_react_agent.py, lines 31-39). -/
def weatherForDay (day_of_week : String) : Except String String :=
  match pyLower day_of_week with
  | "monday" | "tuesday" | "friday" => Except.ok "rainy"
  | "wednesday" | "thursday" => Except.ok "sunny"
  | "saturday" | "sunday" => Except.ok "cloudy"
  | _ => Except.error ("Invalid day of week: " ++ day_of_week)

/-- `get_weather` (04_react_agent.py, lines 30-42): looks up the
condition for the lowercased day and formats it with the city. -/
def get_weather (city : String) (day_of_week : String) : Except String String :=
  match weatherForDay day_of_week with
  | Except.error e => Except.error e
  | Except.ok weather => Except.ok ("The weather in " ++ city ++ " is " ++ weather ++ ".")

/-- Substring containment: `sub` occurs contiguously inside `s`. -/
def containsStr (s sub : String) : Prop :=
  ∃ a b, s = a ++ sub ++ b

/-- Iterated listing: call `list_reminders` `n` times, threading the
returned state. -/
def listTimes : Nat → AgentState → AgentState
  | 0, st => st
  | n + 1, st => listTimes n (list_reminders st).2

/-- A router step seen from outside: a handler result prefixed with the
one classification call the router itself makes. -/
def afterAnalyze (user_request : String) (step : StepResult) : StepResult :=
  (step.1, step.2.1, PredCall.analyzer user_request :: step.2.2)

/-- An environment whose analyzer always returns the given label, used
to exercise the router on concrete inputs. -/
def constEnv (label : String) : Env :=
  { task_analyzer := fun _ => { task_type := label, extracted_info := "info" }
    calculator := fun _ => "42"
    qa := fun _ => "ans"
    reminder_creator := fun _ => ("text", "time")
    now := "2024-01-01T00:00:00" }

theorem append_ne_empty_left (a b : String) (h : a.data ≠ []) : a ++ b ≠ "" := by
  intro hab
  apply h
  have hd : (a ++ b).data = ("" : String).data := congrArg String.data hab
  rw [String.data_append] at hd
  exact (List.append_eq_nil.mp hd).1

theorem reminders_after_request (env : Env) (st : AgentState) (req : String) :
    (process_request env st req).2.1.reminders
      = if (env.task_analyzer req).task_type = "reminder"
        then st.reminders ++ [mkReminder env req]
        else st.reminders := by
  unfold process_request handle_calculation handle_question handle_reminder
    handle_weather handle_unknown
  by_cases h1 : (env.task_analyzer req).task_type = "calculation" <;>
    by_cases h2 : (env.task_analyzer req).task_type = "question" <;>
      by_cases h3 : (env.task_analyzer req).task_type = "reminder" <;>
        by_cases h4 : (env.task_analyzer req).task_type = "weather" <;>
          simp_all

/-- Concatenation of a list of strings, in order. -/
def concatAll : List String → String
  | [] => ""
  | s :: l => s ++ concatAll l

theorem renderReminders_enumFrom (l : List ReminderRecord) (k : Nat) :
    renderReminders k l
      = concatAll ((List.enumFrom k l).map
          (fun p => toString p.1 ++ ". " ++ p.2.text
            ++ " (suggested: " ++ p.2.suggested_time ++ ")\n")) := by
  induction l generalizing k with
  | nil => rfl
  | cons r rs ih =>
      simp only [renderReminders, List.enumFrom, List.map, concatAll]
      rw [ih (k + 1)]

/-- C1: the router dispatches on the exact classification label: each
of the four known labels invokes its correspondingly-named handler, and
any label outside that set invokes the fallback handler. -/
theorem C1_router_dispatch (env : Env) (st : AgentState) (req : String) :
    ((env.task_analyzer req).task_type = "calculation" →
        process_request env st req
          = afterAnalyze req (handle_calculation env st (env.task_analyzer req).extracted_info))
  ∧ ((env.task_analyzer req).task_type = "question" →
        process_request env st req = afterAnalyze req (handle_question env st req))
  ∧ ((env.task_analyzer req).task_type = "reminder" →
        process_request env st req = afterAnalyze req (handle_reminder env st req))
  ∧ ((env.task_analyzer req).task_type = "weather" →
        process_request env st req = afterAnalyze req (handle_weather env st req))
  ∧ ((env.task_analyzer req).task_type
        ∉ (["calculation", "question", "reminder", "weather"] : List String) →
        process_request env st req = afterAnalyze req (handle_unknown env st req)) := by
  refine ⟨?_, ?_, ?_, ?_, ?_⟩ <;> intro h <;>
    simp_all [process_request, afterAnalyze]

/-- Witness for C1: each dispatch branch exercised on a concrete
environment whose analyzer returns the corresponding label. -/
theorem C1_router_dispatch_witness :
    process_request (constEnv "calculation") ⟨[]⟩ "r"
        = afterAnalyze "r" (handle_calculation (constEnv "calculation") ⟨[]⟩ "info")
  ∧ process_request (constEnv "question") ⟨[]⟩ "r"
        = afterAnalyze "r" (handle_question (constEnv "question") ⟨[]⟩ "r")
  ∧ process_request (constEnv "reminder") ⟨[]⟩ "r"
        = afterAnalyze "r" (handle_reminder (constEnv "reminder") ⟨[]⟩ "r")
  ∧ process_request (constEnv "weather") ⟨[]⟩ "r"
        = afterAnalyze "r" (handle_weather (constEnv "weather") ⟨[]⟩ "r")
  ∧ process_request (constEnv "unknown") ⟨[]⟩ "r"
        = afterAnalyze "r" (handle_unknown (constEnv "unknown") ⟨[]⟩ "r") :=
  ⟨(C1_router_dispatch (constEnv "calculation") ⟨[]⟩ "r").1 rfl,
   (C1_router_dispatch (constEnv "question") ⟨[]⟩ "r").2.1 rfl,
   (C1_router_dispatch (constEnv "reminder") ⟨[]⟩ "r").2.2.1 rfl,
   (C1_router_dispatch (constEnv "weather") ⟨[]⟩ "r").2.2.2.1 rfl,
   (C1_router_dispatch (constEnv "unknown") ⟨[]⟩ "r").2.2.2.2 (by decide)⟩

/-- C2: the reminder store is append-only and order-preserving: one
request appends exactly one record when classified "reminder" and
leaves the store unchanged otherwise, and a whole sequence of requests
appends exactly the records of its reminder-classified requests, in
arrival order, with the text produced at creation. -/
theorem C2_reminder_store_append_only (env : Env) (st : AgentState) (req : String)
    (rs : List String) :
    ((process_request env st req).2.1.reminders
        = if (env.task_analyzer req).task_type = "reminder"
          then st.reminders ++ [mkReminder env req]
          else st.reminders)
  ∧ (process_all env st rs).reminders
      = st.reminders
          ++ (rs.filter (fun r => (env.task_analyzer r).task_type == "reminder")).map
               (mkReminder env) := by
  refine ⟨reminders_after_request env st req, ?_⟩
  induction rs generalizing st with
  | nil => simp [process_all]
  | cons r rest ih =>
      show (process_all env (process_request env st r).2.1 rest).reminders = _
      rw [ih]
      rw [reminders_after_request env st r]
      by_cases h : (env.task_analyzer r).task_type = "reminder" <;>
        simp [List.filter_cons, beq_iff_eq, h]

theorem data_append_ne (a b : String) (h : a.data ≠ []) : (a ++ b).data ≠ [] := by
  rw [String.data_append]
  simp [List.append_eq_nil, h]

theorem weather_sentence_contains (city w : String) :
    containsStr ("The weather in " ++ city ++ " is " ++ w ++ ".") w :=
  ⟨"The weather in " ++ city ++ " is ", ".", rfl⟩

/-- C3: `get_weather` matches the lowercased day against the weekday
table (monday/tuesday/friday rainy, wednesday/thursday sunny,
saturday/sunday cloudy), returning a sentence containing the condition,
and fails exactly when the day is not a recognized weekday name. -/
theorem C3_get_weather_cases (city day : String) :
    (pyLower day ∈ (["monday", "tuesday", "friday"] : List String) →
       ∃ s, get_weather city day = Except.ok s ∧ containsStr s "rainy")
  ∧ (pyLower day ∈ (["wednesday", "thursday"] : List String) →
       ∃ s, get_weather city day = Except.ok s ∧ containsStr s "sunny")
  ∧ (pyLower day ∈ (["saturday", "sunday"] : List String) →
       ∃ s, get_weather city day = Except.ok s ∧ containsStr s "cloudy")
  ∧ ((∃ e, get_weather city day = Except.error e)
       ↔ pyLower day ∉ (["monday", "tuesday", "wednesday", "thursday",
            "friday", "saturday", "sunday"] : List String)) := by
  refine ⟨?_, ?_, ?_, ?_⟩
  · intro hmem
    rcases (by simpa using hmem : _ ∨ _ ∨ _) with h | h | h <;>
      exact ⟨_, by simp [get_weather, weatherForDay, h],
             weather_sentence_contains city "rainy"⟩
  · intro hmem
    rcases (by simpa using hmem : _ ∨ _) with h | h <;>
      exact ⟨_, by simp [get_weather, weatherForDay, h],
             weather_sentence_contains city "sunny"⟩
  · intro hmem
    rcases (by simpa using hmem : _ ∨ _) with h | h <;>
      exact ⟨_, by simp [get_weather, weatherForDay, h],
             weather_sentence_contains city "cloudy"⟩
  · constructor
    · rintro ⟨e, he⟩ hmem
      rcases (by simpa using hmem : _ ∨ _ ∨ _ ∨ _ ∨ _ ∨ _ ∨ _) with
          h | h | h | h | h | h | h <;>
        simp [get_weather, weatherForDay, h] at he
    · intro hmem
      refine ⟨"Invalid day of week: " ++ day, ?_⟩
      have hw : weatherForDay day = Except.error ("Invalid day of week: " ++ day) := by
        unfold weatherForDay
        split <;> simp_all
      simp [get_weather, hw]

/-- Witness for C3: one concrete day from each row of the table, plus
the spec's two named cases `Wednesday` and `Funday`. -/
theorem C3_get_weather_cases_witness :
    (∃ s, get_weather "Paris" "Monday" = Except.ok s ∧ containsStr s "rainy")
  ∧ (∃ s, get_weather "Paris" "Wednesday" = Except.ok s ∧ containsStr s "sunny")
  ∧ (∃ s, get_weather "Paris" "Saturday" = Except.ok s ∧ containsStr s "cloudy")
  ∧ (∃ e, get_weather "Paris" "Funday" = Except.error e) :=
  ⟨(C3_get_weather_cases "Paris" "Monday").1 (by decide),
   (C3_get_weather_cases "Paris" "Wednesday").2.1 (by decide),
   (C3_get_weather_cases "Paris" "Saturday").2.2.1 (by decide),
   (C3_get_weather_cases "Paris" "Funday").2.2.2.mpr (by decide)⟩

/-- C5: `setup_dspy` fails with the missing-credential error exactly
when `GEMINI_API_KEY` is absent or empty, and otherwise constructs the
model client with that key; on failure no client value exists. -/
theorem C5_setup_requires_key (getenv : String → Option String) (model_id : String) :
    ((getenv "GEMINI_API_KEY" = none ∨ getenv "GEMINI_API_KEY" = some "")
        ↔ setup_dspy getenv model_id
            = Except.error "GEMINI_API_KEY not found in environment variables")
  ∧ (∀ k, getenv "GEMINI_API_KEY" = some k → k ≠ "" →
        setup_dspy getenv model_id = Except.ok { model := model_id, api_key := k }) := by
  constructor
  · constructor
    · rintro (h | h) <;> simp [setup_dspy, h]
    · intro h
      cases hg : getenv "GEMINI_API_KEY" with
      | none => exact Or.inl rfl
      | some k =>
          by_cases hk : k = ""
          · exact Or.inr (congrArg some hk)
          · exfalso
            simp [setup_dspy, hg, hk] at h
  · intro k hk hne
    simp [setup_dspy, hk, hne]

/-- Witness for C5: an empty environment fails with the configuration
error; an environment holding a key yields a client with that key. -/
theorem C5_setup_requires_key_witness :
    setup_dspy (fun _ => none) "gemini/gemini-2.5-flash-lite"
        = Except.error "GEMINI_API_KEY not found in environment variables"
  ∧ setup_dspy (fun _ => some "secret") "gemini/gemini-2.5-flash-lite"
        = Except.ok { model := "gemini/gemini-2.5-flash-lite", api_key := "secret" } :=
  ⟨(C5_setup_requires_key (fun _ => none) "gemini/gemini-2.5-flash-lite").1.mp
      (Or.inl rfl),
   (C5_setup_requires_key (fun _ => some "secret") "gemini/gemini-2.5-flash-lite").2
      "secret" rfl (by decide)⟩

/-- C6: listing an empty store returns the fixed non-empty
"no reminders" message; listing a non-empty store returns the header
followed by each record in insertion order, the record at 1-based
position i rendered as "i. text (suggested: time)". -/
theorem C6_list_reminders_rendering (st : AgentState) :
    ((list_reminders { reminders := [] }).1 = "📝 No reminders stored yet."
      ∧ (list_reminders { reminders := [] }).1 ≠ "")
  ∧ (st.reminders ≠ [] →
      (list_reminders st).1
        = "📝 Your reminders:\n"
            ++ concatAll ((List.enumFrom 1 st.reminders).map
                 (fun p => toString p.1 ++ ". " ++ p.2.text
                   ++ " (suggested: " ++ p.2.suggested_time ++ ")\n"))) := by
  refine ⟨⟨rfl, by decide⟩, ?_⟩
  intro h
  simp [list_reminders, h]
  rw [renderReminders_enumFrom]

/-- Witness for C6: a one-record store is rendered as the numbered
line for that record under the header. -/
theorem C6_list_reminders_rendering_witness :
    (list_reminders { reminders := [⟨"call mom", "2 PM", "t0"⟩] }).1
      = "📝 Your reminders:\n"
          ++ concatAll ((List.enumFrom 1
                 ([⟨"call mom", "2 PM", "t0"⟩] : List ReminderRecord)).map
               (fun p => toString p.1 ++ ". " ++ p.2.text
                 ++ " (suggested: " ++ p.2.suggested_time ++ ")\n")) :=
  (C6_list_reminders_rendering { reminders := [⟨"call mom", "2 PM", "t0"⟩] }).2
    (by decide)

/-- C7: for every model behaviour, every starting state and every
request, the router terminates with a non-empty response string,
whatever label the analyzer produced and even when every predictor
output field is empty. -/
theorem C7_response_nonempty (env : Env) (st : AgentState) (req : String) :
    (process_request env st req).1 ≠ "" := by
  have hcalc : ∀ e, (handle_calculation env st e).1 ≠ "" := fun e =>
    append_ne_empty_left _ _ (by decide)
  have hq : ∀ q, (handle_question env st q).1 ≠ "" := fun q =>
    append_ne_empty_left _ _ (by decide)
  have hr : ∀ r, (handle_reminder env st r).1 ≠ "" := fun r =>
    append_ne_empty_left _ _ (data_append_ne _ _ (data_append_ne _ _ (by decide)))
  have hw : ∀ r, (handle_weather env st r).1 ≠ "" := fun r => by
    simp only [handle_weather]
    decide
  have hu : ∀ r, (handle_unknown env st r).1 ≠ "" := fun r =>
    append_ne_empty_left _ _ (by decide)
  simp only [process_request]
  split
  · exact hcalc _
  · split
    · exact hq _
    · split
      · exact hr _
      · split
        · exact hw _
        · exact hu _

/-- C8: whenever the analyzer labels a request "weather", the router
returns the fixed weather response unchanged for every request text,
leaves the agent state untouched, and the only predictor invocation of
the whole request is the classification call. -/
theorem C8_weather_handler_static (env : Env) (st : AgentState) (req : String) :
    (env.task_analyzer req).task_type = "weather" →
      process_request env st req
        = ("🌤️ Weather: I don\x27t have access to real weather data yet, but I can help you set up a weather API integration!",
           st, [PredCall.analyzer req]) := by
  intro h
  simp [process_request, handle_weather, h]

/-- Witness for C8: a weather-classified request on a concrete
environment produces exactly the static response and no state change. -/
theorem C8_weather_handler_static_witness :
    process_request (constEnv "weather") ⟨[]⟩ "any request"
      = ("🌤️ Weather: I don\x27t have access to real weather data yet, but I can help you set up a weather API integration!",
         (⟨[]⟩ : AgentState), [PredCall.analyzer "any request"]) :=
  C8_weather_handler_static (constEnv "weather") ⟨[]⟩ "any request" rfl

/-- C9: the weather condition does not depend on the city: for any two
cities and any recognized weekday, the two results are the same
sentence up to the echoed city name, with one shared condition. -/
theorem C9_weather_city_independent (c1 c2 day : String) :
    pyLower day ∈ (["monday", "tuesday", "wednesday", "thursday", "friday",
        "saturday", "sunday"] : List String) →
      ∃ w, get_weather c1 day
              = Except.ok ("The weather in " ++ c1 ++ " is " ++ w ++ ".")
         ∧ get_weather c2 day
              = Except.ok ("The weather in " ++ c2 ++ " is " ++ w ++ ".") := by
  intro hmem
  rcases (by simpa using hmem : _ ∨ _ ∨ _ ∨ _ ∨ _ ∨ _ ∨ _) with
      h | h | h | h | h | h | h
  · exact ⟨"rainy", by simp [get_weather, weatherForDay, h],
      by simp [get_weather, weatherForDay, h]⟩
  · exact ⟨"rainy", by simp [get_weather, weatherForDay, h],
      by simp [get_weather, weatherForDay, h]⟩
  · exact ⟨"sunny", by simp [get_weather, weatherForDay, h],
      by simp [get_weather, weatherForDay, h]⟩
  · exact ⟨"sunny", by simp [get_weather, weatherForDay, h],
      by simp [get_weather, weatherForDay, h]⟩
  · exact ⟨"rainy", by simp [get_weather, weatherForDay, h],
      by simp [get_weather, weatherForDay, h]⟩
  · exact ⟨"cloudy", by simp [get_weather, weatherForDay, h],
      by simp [get_weather, weatherForDay, h]⟩
  · exact ⟨"cloudy", by simp [get_weather, weatherForDay, h],
      by simp [get_weather, weatherForDay, h]⟩

/-- Witness for C9: Paris and Tokyo get the same condition on a
Friday. -/
theorem C9_weather_city_independent_witness :
    ∃ w, get_weather "Paris" "Friday"
            = Except.ok ("The weather in " ++ "Paris" ++ " is " ++ w ++ ".")
       ∧ get_weather "Tokyo" "Friday"
            = Except.ok ("The weather in " ++ "Tokyo" ++ " is " ++ w ++ ".") :=
  C9_weather_city_independent "Paris" "Tokyo" "Friday" (by decide)

/-- C10: listing reminders is read-only: it returns the state it was
given, and any number of repeated listings leaves the store (and with
it every later listing's output) unchanged. -/
theorem C10_list_reminders_readonly (st : AgentState) (n : Nat) :
    (list_reminders st).2 = st
  ∧ listTimes n st = st
  ∧ (list_reminders (list_reminders st).2).1 = (list_reminders st).1 := by
  have hbase : ∀ s : AgentState, (list_reminders s).2 = s := by
    intro s
    unfold list_reminders
    split <;> rfl
  refine ⟨hbase st, ?_, by rw [hbase st]⟩
  induction n with
  | zero => rfl
  | succ k ih =>
      show listTimes k (list_reminders st).2 = st
      rw [hbase st]
      exact ih
